import Mathlib

/-!
Verification of the cifuzz fuzz-target module (infra/cifuzz/fuzz_target.py).

The Python module is shallowly embedded as pure Lean functions.  Effects are
made explicit through a `World` record: the filesystem is a list of existing
paths, the sandbox runner (`utils.execute`) is an oracle giving the exit code
of each successive invocation, the remote artifact store is an oracle from
URLs to responses, and counters record how many sandbox / network operations
were performed.  Python exceptions are modelled with `Except`.
-/

namespace CIFuzz

/-- Characters treated as whitespace by a Python `re` pattern class `\s`
on an ASCII text. -/
def pyIsSpace (c : Char) : Bool :=
  c = ' ' || c = '\t' || c = '\n' || c = '\r' || c = '\x0b' || c = '\x0c'

/-- Characters matched by the Python `re` class `\w` on an ASCII text
(letters, digits and underscore); used for the word boundary `\b`. -/
def pyIsWord (c : Char) : Bool :=
  c.isAlphanum || c = '_'

/-- Python truthiness of an optional string: `None` and the empty string
are falsy (`if not self.project_name`). -/
def strOptTruthy : Option String → Bool
  | none => false
  | some s => s != ""

/-- The string an optional holds, the empty string for `None`. -/
def strOptVal : Option String → String
  | none => ""
  | some s => s

/-- Helper for `basename`: the characters after the last slash. -/
def basenameAux : List Char → List Char → List Char
  | cur, [] => cur
  | cur, c :: rest =>
    if c = '/' then basenameAux [] rest else basenameAux (cur ++ [c]) rest

/-- Embedding of `os.path.basename` (POSIX): the component after the last
slash. -/
def basename (p : String) : String :=
  String.mk (basenameAux [] p.toList)

/-- Helper for `dirname`: the index of the last slash, if any. -/
def lastSlashIdxAux : List Char → Nat → Option Nat → Option Nat
  | [], _, acc => acc
  | c :: rest, i, acc =>
    lastSlashIdxAux rest (i + 1) (if c = '/' then some i else acc)

/-- Embedding of `os.path.dirname` (POSIX): everything up to the last slash,
with trailing slashes stripped unless the head is all slashes. -/
def dirname (p : String) : String :=
  match lastSlashIdxAux p.toList 0 none with
  | none => ""
  | some i =>
    let head := p.toList.take (i + 1)
    if head.all (fun c => c = '/') then String.mk head
    else String.mk ((head.reverse.dropWhile (fun c => c = '/')).reverse)

/-- Embedding of the two-argument `os.path.join` / `posixpath.join`: an
absolute second component replaces the first, otherwise the parts are glued
with a single slash. -/
def osPathJoin (a b : String) : String :=
  if b.toList.head? = some '/' then b
  else if a = "" || a.toList.getLast? = some '/' then a ++ b
  else a ++ "/" ++ b

/-- Embedding of `url_join` (fuzz_target.py line 239): `posixpath.join`
over three sections. -/
def url_join3 (a b c : String) : String :=
  osPathJoin (osPathJoin a b) c

/-- Constant `LIBFUZZER_OPTIONS` (line 34). -/
def LIBFUZZER_OPTIONS : String := "-seed=1337 -len_control=0"

/-- Constant `GCS_BASE_URL` (line 37). -/
def GCS_BASE_URL : String := "https://storage.googleapis.com/clusterfuzz-builds"

/-- Constant `REPRODUCE_ATTEMPTS` (line 40): the number of reproduce
attempts for a crash. -/
def REPRODUCE_ATTEMPTS : Nat := 10

/-- Constant `BUILD_STORE_NAME` (line 43): the (current-directory-relative)
file name the latest OSS-Fuzz build archive is stored at. -/
def BUILD_STORE_NAME : String := "oss_fuzz_latest.zip"

/-- The `FuzzTarget` constructor state (lines 56-72): `target_name` is
derived below as `basename target_path`. -/
structure FuzzTarget where
  target_path : String
  duration : Nat
  out_dir : String
  project_name : Option String

/-- Attribute `self.target_name = os.path.basename(target_path)` (line 68). -/
def target_name (t : FuzzTarget) : String :=
  basename t.target_path

/-- The remote artifact store: `fetch` is `urllib.request.urlopen` (the
response body, `none` on `HTTPError`); `retrieve` is
`urllib.request.urlretrieve` (the relative member names of the fetched zip
archive, `none` on `HTTPError`). -/
structure ArtifactStore where
  fetch : String → Option String
  retrieve : String → Option (List String)

/-- The explicit effect state threaded through the embedded functions.
`fs` is the set of existing filesystem paths; `execCode` scripts the exit
code of the n-th `utils.execute` sandbox invocation; the remaining fields
are observation counters for the effect trace (sandbox runs, reproducibility
passes and the build directories they were given, network fetches and
archive downloads). -/
structure World where
  fs : List String
  execCode : Nat → Nat
  execCalls : Nat
  reproCalls : Nat
  reproDirs : List String
  fetchCount : Nat
  downloadCount : Nat
  sandboxCalls : Nat
  store : ArtifactStore

/-- Existence check `os.path.exists`. -/
def pathExists (w : World) (p : String) : Bool :=
  w.fs.contains p

/-- Embedding of `utils.execute` running a given command: returns the
scripted exit code of the next sandbox invocation and advances the
invocation counter (the exit code of a flaky reproduction depends on the
environment, not on the command text, so the oracle is indexed by the
invocation number). -/
def execute (_cmd : List String) (w : World) : Nat × World :=
  (w.execCode w.execCalls, { w with execCalls := w.execCalls + 1 })

/-- The `docker run ... reproduce <target> -runs=100` command built by
`is_reproducible` (lines 127-132). -/
def reproduce_command (t : FuzzTarget) (test_case target_path : String) :
    List String :=
  ["docker", "run", "--rm", "--privileged", "-v", target_path ++ ":/out",
   "-v", test_case ++ ":/testcase", "-t", "gcr.io/oss-fuzz-base/base-runner",
   "reproduce", target_name t, "-runs=100"]

/-- The retry loop of `is_reproducible` (lines 133-137): run the command up
to `n` times, returning true on the first nonzero exit code. -/
def reproLoop (cmd : List String) : Nat → World → Bool × World
  | 0, w => (false, w)
  | n + 1, w =>
    let r := execute cmd w
    if r.1 ≠ 0 then (true, r.2) else reproLoop cmd n r.2

/-- Embedding of `FuzzTarget.is_reproducible` (lines 117-137).  The entry
also records the pass and the build directory it replays against, for the
effect trace. -/
def is_reproducible (t : FuzzTarget) (test_case target_path : String)
    (w : World) : Bool × World :=
  reproLoop (reproduce_command t test_case target_path) REPRODUCE_ATTEMPTS
    { w with reproCalls := w.reproCalls + 1,
             reproDirs := w.reproDirs ++ [target_path] }

/-- Embedding of `FuzzTarget.get_lastest_build_version` (lines 188-206):
build the `<project>-address-latest.version` URL and query the store. -/
def get_lastest_build_version (t : FuzzTarget) (w : World) :
    Option String × World :=
  if strOptTruthy t.project_name = false then (none, w)
  else
    let project := strOptVal t.project_name
    let version := project ++ "-address-latest.version"
    let version_url := url_join3 GCS_BASE_URL project version
    let w1 := { w with fetchCount := w.fetchCount + 1 }
    match w1.store.fetch version_url with
    | none => (none, w1)
    | some body => (some body, w1)

/-- Embedding of `FuzzTarget.download_oss_fuzz_build` (lines 208-236).
On success the zip archive is written to the current-directory-relative
`BUILD_STORE_NAME` and its members are extracted under the cache path
`<out_dir>/oss_fuzz_latest/<project>`. -/
def download_oss_fuzz_build (t : FuzzTarget) (w : World) :
    Option String × World :=
  if pathExists w t.out_dir = false then (none, w)
  else if strOptTruthy t.project_name = false then (none, w)
  else
    let project := strOptVal t.project_name
    let build_dir := osPathJoin (osPathJoin t.out_dir "oss_fuzz_latest") project
    if pathExists w (osPathJoin build_dir (target_name t)) then
      (some build_dir, w)
    else
      let w1 := { w with fs := build_dir :: w.fs }
      let v := get_lastest_build_version t w1
      if strOptTruthy v.1 = false then (none, v.2)
      else
        let latest_build_str := strOptVal v.1
        let url := url_join3 GCS_BASE_URL project latest_build_str
        let w2 := { v.2 with downloadCount := v.2.downloadCount + 1 }
        match w2.store.retrieve url with
        | none => (none, w2)
        | some members =>
          let w3 := { w2 with
            fs := members.map (fun m => osPathJoin build_dir m) ++
                  BUILD_STORE_NAME :: w2.fs }
          (some build_dir, w3)

/-- The literal part of the regular expression
`\bTest unit written to \.\/([^\s]+)` used by `get_test_case` (line 183). -/
def markerChars : List Char := "Test unit written to ./".toList

/-- The word-boundary condition `\b` before the literal: since the literal
starts with the word character `T`, the boundary holds exactly when the
preceding character (if any) is not a word character. -/
def boundaryOk : Option Char → Bool
  | none => true
  | some c => !pyIsWord c

/-- Match a literal character list as a prefix, returning the remainder. -/
def dropPrefixCL : List Char → List Char → Option (List Char)
  | [], s => some s
  | _ :: _, [] => none
  | p :: ps, c :: cs => if c = p then dropPrefixCL ps cs else none

/-- Attempt the regex `\bTest unit written to \.\/([^\s]+)` at one position:
`prev` is the character just before the position (for the boundary), `s` the
suffix starting at the position.  Returns the capture group `[^\s]+` (the
maximal non-empty run of non-whitespace after the literal). -/
def matchAt (prev : Option Char) (s : List Char) : Option (List Char) :=
  if boundaryOk prev then
    match dropPrefixCL markerChars s with
    | none => none
    | some rest =>
      let cap := rest.takeWhile (fun c => !pyIsSpace c)
      if cap = [] then none else some cap
  else none

/-- Embedding of `re.search`: try `matchAt` at every position from left to
right and return the first capture. -/
def searchFrom (prev : Option Char) : List Char → Option (List Char)
  | [] => none
  | c :: rest =>
    match matchAt prev (c :: rest) with
    | some cap => some cap
    | none => searchFrom (some c) rest

/-- Embedding of `FuzzTarget.get_test_case` (lines 174-186): search the
error text for the reproducer marker and join the capture onto the output
directory. -/
def get_test_case (t : FuzzTarget) (error_string : String) : Option String :=
  match searchFrom none error_string.toList with
  | some cap => some (osPathJoin t.out_dir (String.mk cap))
  | none => none

/-- Embedding of `FuzzTarget.is_crash_a_failure` (lines 139-172). -/
def is_crash_a_failure (t : FuzzTarget) (test_case : String) (w : World) :
    Bool × World :=
  let r := is_reproducible t test_case (dirname t.target_path) w
  if strOptTruthy t.project_name = false then r
  else if r.1 = false then (false, r.2)
  else
    let d := download_oss_fuzz_build t r.2
    match d.1 with
    | none => (false, d.2)
    | some oss_fuzz_build_dir =>
      let r2 := is_reproducible t test_case oss_fuzz_build_dir d.2
      if r.1 && !r2.1 then (true, r2.2) else (false, r2.2)

/-- Python exceptions that the embedded `fuzz` can raise. -/
inductive PyError where
  | unicodeDecodeError
  | typeError (msg : String)
deriving DecidableEq

/-- Outcome of `process.communicate(timeout=self.duration)` (lines 101-105):
either the run hit the deadline (`subprocess.TimeoutExpired`) or it ended
first with the given captured stderr bytes. -/
inductive ProcOutcome where
  | timeout
  | completed (err : List Nat)

/-- Embedding of `bytes.decode` with the strict `ascii` codec (line 108):
fails with `UnicodeDecodeError` when any byte is outside 0..127. -/
def decode_ascii (bs : List Nat) : Except PyError String :=
  if bs.all (fun b => b < 128) then .ok (String.mk (bs.map Char.ofNat))
  else .error .unicodeDecodeError

/-- The keyword arguments CPython `logging.error` forwards to
`Logger._log`; any other keyword raises `TypeError` (modelled from the
CPython standard library signature of `Logger._log`). -/
def loggingKwargOk (kwargs : List String) : Bool :=
  kwargs.all (fun k =>
    k = "exc_info" || k = "extra" || k = "stack_info" || k = "stacklevel")

/-- Embedding of a `logging.error(msg, **kwargs)` call: succeeds when every
keyword is one `Logger._log` accepts, otherwise raises `TypeError` (the
root logger is configured at level DEBUG on line 30, so the ERROR record is
always enabled and `_log` is always reached). -/
def logging_error (_msg : String) (kwargs : List String) :
    Except PyError Unit :=
  if loggingKwargOk kwargs then .ok ()
  else .error (.typeError "unexpected keyword argument passed to Logger log call")

/-- The `docker run` command built by `fuzz` (lines 82-95); `container` is
the result of `utils.get_container_name`, empty/absent meaning the process
is not itself inside a container. -/
def fuzz_command (t : FuzzTarget) (container : Option String) : List String :=
  ["docker", "run", "--rm", "--privileged"] ++
  (if strOptTruthy container then
    ["--volumes-from", strOptVal container, "-e", "OUT=" ++ t.out_dir]
  else
    ["-v", t.out_dir ++ ":/out"]) ++
  ["-e", "FUZZING_ENGINE=libfuzzer", "-e", "SANITIZER=address", "-e",
   "RUN_FUZZER_MODE=interactive", "gcr.io/oss-fuzz-base/base-runner",
   "bash", "-c",
   "run_fuzzer " ++ target_name t ++ " " ++ LIBFUZZER_OPTIONS]

/-- Embedding of `FuzzTarget.fuzz` (lines 74-115).  `subprocess.Popen`
launches the sandboxed run unconditionally (counted in `sandboxCalls`);
`outcome` is what `communicate` observes.  On early termination the stderr
bytes are decoded strictly as ASCII; a missing reproducer marker leads to
`logging.error('No test case found in stack trace.', file=sys.stderr)`
(line 111), whose invalid `file` keyword is passed on to the logging call. -/
def fuzz (t : FuzzTarget) (container : Option String) (outcome : ProcOutcome)
    (w : World) : Except PyError ((Option String × Option String) × World) :=
  let _cmd := fuzz_command t container
  let w1 := { w with sandboxCalls := w.sandboxCalls + 1 }
  match outcome with
  | .timeout => .ok ((none, none), w1)
  | .completed err =>
    match decode_ascii err with
    | .error e => .error e
    | .ok err_str =>
      match get_test_case t err_str with
      | none =>
        match logging_error "No test case found in stack trace." ["file"] with
        | .error e => .error e
        | .ok _ => .ok ((none, none), w1)
      | some test_case =>
        let r := is_crash_a_failure t test_case w1
        if r.1 then .ok ((some test_case, some err_str), r.2)
        else .ok ((none, none), r.2)

/-- Modelled from the spec: the Fuzz Session entry point
(`cifuzz.run_fuzzers`, a file of this repository that is not under `src/`;
only its tests are).  Per section 8 Scenario D and the repository test
`test_invalid_out_dir`, the session checks that the output directory exists
before any Sandbox Runner invocation and returns the negative/empty result
when it does not; otherwise it runs the target's `fuzz`. -/
def run_fuzzers_session (t : FuzzTarget) (container : Option String)
    (outcome : ProcOutcome) (w : World) :
    Except PyError ((Option String × Option String) × World) :=
  if pathExists w t.out_dir then fuzz t container outcome w
  else .ok ((none, none), w)

/-! Concrete fixtures used by witnesses and counterexamples. -/

/-- A store on which every remote operation fails. -/
def store0 : ArtifactStore := { fetch := fun _ => none, retrieve := fun _ => none }

/-- A world with an empty filesystem, always-clean sandbox runs and a
failing store. -/
def w0 : World :=
  { fs := [], execCode := fun _ => 0, execCalls := 0, reproCalls := 0,
    reproDirs := [], fetchCount := 0, downloadCount := 0, sandboxCalls := 0,
    store := store0 }

/-- A sample fuzz target tied to the `example` project. -/
def tEx : FuzzTarget :=
  { target_path := "/build/out/do_stuff_fuzzer", duration := 5,
    out_dir := "/build/out", project_name := some "example" }

/-- A store that serves the latest `example` build. -/
def storeOk : ArtifactStore :=
  { fetch := fun u =>
      if u = "https://storage.googleapis.com/clusterfuzz-builds/example/example-address-latest.version"
      then some "example-address-202001010000.zip" else none,
    retrieve := fun u =>
      if u = "https://storage.googleapis.com/clusterfuzz-builds/example/example-address-202001010000.zip"
      then some ["do_stuff_fuzzer", "do_stuff_fuzzer_seed_corpus.zip"] else none }

/-- A world where the output directory exists and the store works. -/
def wOk : World := { w0 with fs := ["/build/out"], store := storeOk }

/-! Lemmas about the reproducibility retry loop. -/

/-- The retry loop reports true exactly when one of its `n` scripted
attempts exits abnormally. -/
theorem reproLoop_true_iff (cmd : List String) (n : Nat) (w : World) :
    (reproLoop cmd n w).1 = true ↔
      ∃ i, i < n ∧ w.execCode (w.execCalls + i) ≠ 0 := by
  induction n generalizing w with
  | zero => simp [reproLoop]
  | succ n ih =>
    simp only [reproLoop, execute]
    by_cases h : w.execCode w.execCalls ≠ 0
    · simp only [if_pos h]
      constructor
      · intro _
        exact ⟨0, Nat.succ_pos n, by simpa using h⟩
      · intro _
        trivial
    · simp only [if_neg h]
      rw [ih]
      constructor
      · rintro ⟨i, hi, hc⟩
        refine ⟨i + 1, Nat.succ_lt_succ hi, ?_⟩
        simpa [Nat.add_assoc, Nat.add_comm 1 i] using hc
      · rintro ⟨i, hi, hc⟩
        match i with
        | 0 => exact absurd (by simpa using hc) h
        | j + 1 =>
          refine ⟨j, Nat.lt_of_succ_lt_succ hi, ?_⟩
          simpa [Nat.add_assoc, Nat.add_comm 1 j] using hc

/-- If every one of the `n` scripted attempts exits cleanly, the loop
reports false after consuming exactly `n` sandbox invocations. -/
theorem reproLoop_all_zero (cmd : List String) (n : Nat) (w : World)
    (h : ∀ i, i < n → w.execCode (w.execCalls + i) = 0) :
    (reproLoop cmd n w).1 = false ∧
      (reproLoop cmd n w).2.execCalls = w.execCalls + n := by
  induction n generalizing w with
  | zero => simp [reproLoop]
  | succ n ih =>
    have h0 : w.execCode w.execCalls = 0 := by simpa using h 0 (Nat.succ_pos n)
    simp only [reproLoop, execute, if_neg (by simpa using h0 : ¬w.execCode w.execCalls ≠ 0)]
    have := ih { w with execCalls := w.execCalls + 1 } (by
      intro i hi
      simpa [Nat.add_assoc, Nat.add_comm 1 i] using h (i + 1) (Nat.succ_lt_succ hi))
    simpa [Nat.add_assoc, Nat.add_comm 1 n] using this

/-- If attempt `k` is the first scripted abnormal exit, the loop
short-circuits: it reports true after exactly `k + 1` sandbox
invocations. -/
theorem reproLoop_first_hit (cmd : List String) (n : Nat) (w : World)
    (k : Nat) (hk : k < n) (hcode : w.execCode (w.execCalls + k) ≠ 0)
    (hzero : ∀ j, j < k → w.execCode (w.execCalls + j) = 0) :
    (reproLoop cmd n w).1 = true ∧
      (reproLoop cmd n w).2.execCalls = w.execCalls + (k + 1) := by
  induction n generalizing w k with
  | zero => exact absurd hk (Nat.not_lt_zero k)
  | succ n ih =>
    match k with
    | 0 =>
      have h0 : w.execCode w.execCalls ≠ 0 := by simpa using hcode
      simp [reproLoop, execute, if_pos h0]
    | k + 1 =>
      have h0 : w.execCode w.execCalls = 0 := by
        simpa using hzero 0 (Nat.succ_pos k)
      simp only [reproLoop, execute,
        if_neg (by simpa using h0 : ¬w.execCode w.execCalls ≠ 0)]
      have := ih { w with execCalls := w.execCalls + 1 } k
        (Nat.lt_of_succ_lt_succ hk)
        (by simpa [Nat.add_assoc, Nat.add_comm 1 k] using hcode)
        (by
          intro j hj
          simpa [Nat.add_assoc, Nat.add_comm 1 j] using
            hzero (j + 1) (Nat.succ_lt_succ hj))
      simpa [Nat.add_assoc, Nat.add_comm 1 (k + 1)] using this

/-- The entry bookkeeping of `is_reproducible` does not change the sandbox
oracle or the invocation counter. -/
theorem is_reproducible_eq_loop (t : FuzzTarget) (test_case target_path : String)
    (w : World) :
    is_reproducible t test_case target_path w =
      reproLoop (reproduce_command t test_case target_path) REPRODUCE_ATTEMPTS
        { w with reproCalls := w.reproCalls + 1,
                 reproDirs := w.reproDirs ++ [target_path] } := rfl

/-- C3: the Reproducibility Verifier (`is_reproducible`) returns true iff
one of at most 10 sandbox replay attempts reports a non-zero exit; it
returns true right after the first abnormal attempt (consuming exactly
`k + 1` sandbox invocations when attempt `k` is the first abnormal one) and
returns false only after all 10 attempts ran with normal exit; each attempt
replays the input with `-runs=100` internal engine iterations. -/
theorem is_reproducible_retry_policy (t : FuzzTarget)
    (test_case target_path : String) (w : World) :
    REPRODUCE_ATTEMPTS = 10 ∧
    "-runs=100" ∈ reproduce_command t test_case target_path ∧
    ((is_reproducible t test_case target_path w).1 = true ↔
      ∃ i, i < 10 ∧ w.execCode (w.execCalls + i) ≠ 0) ∧
    (∀ k, k < 10 → w.execCode (w.execCalls + k) ≠ 0 →
      (∀ j, j < k → w.execCode (w.execCalls + j) = 0) →
      (is_reproducible t test_case target_path w).1 = true ∧
        (is_reproducible t test_case target_path w).2.execCalls =
          w.execCalls + (k + 1)) ∧
    ((∀ i, i < 10 → w.execCode (w.execCalls + i) = 0) →
      (is_reproducible t test_case target_path w).1 = false ∧
        (is_reproducible t test_case target_path w).2.execCalls =
          w.execCalls + 10) := by
  refine ⟨rfl, by simp [reproduce_command], ?_, ?_, ?_⟩
  · rw [is_reproducible_eq_loop]
    simpa [REPRODUCE_ATTEMPTS] using
      reproLoop_true_iff (reproduce_command t test_case target_path) 10
        { w with reproCalls := w.reproCalls + 1,
                 reproDirs := w.reproDirs ++ [target_path] }
  · intro k hk hcode hzero
    rw [is_reproducible_eq_loop]
    simpa [REPRODUCE_ATTEMPTS] using
      reproLoop_first_hit (reproduce_command t test_case target_path) 10
        { w with reproCalls := w.reproCalls + 1,
                 reproDirs := w.reproDirs ++ [target_path] }
        k hk hcode hzero
  · intro h
    rw [is_reproducible_eq_loop]
    simpa [REPRODUCE_ATTEMPTS] using
      reproLoop_all_zero (reproduce_command t test_case target_path) 10
        { w with reproCalls := w.reproCalls + 1,
                 reproDirs := w.reproDirs ++ [target_path] }
        h

/-- Concrete instance of the retry policy: with a scripted outcome sequence
`[normal, normal, abnormal, ...]` the verifier reports true after exactly 3
sandbox invocations, and with all-normal outcomes it reports false after
all 10. -/
theorem is_reproducible_retry_policy_witness :
    ((2 : Nat) < 10 ∧
      (is_reproducible tEx "/build/out/crash-1" "/build/out"
        { w0 with execCode := fun n => if n = 2 then 1 else 0 }).1 = true ∧
      (is_reproducible tEx "/build/out/crash-1" "/build/out"
        { w0 with execCode := fun n => if n = 2 then 1 else 0 }).2.execCalls = 3) ∧
    ((is_reproducible tEx "/build/out/crash-1" "/build/out" w0).1 = false ∧
      (is_reproducible tEx "/build/out/crash-1" "/build/out" w0).2.execCalls = 10) := by
  constructor
  · refine ⟨by decide, ?_⟩
    have h := (is_reproducible_retry_policy tEx "/build/out/crash-1" "/build/out"
      { w0 with execCode := fun n => if n = 2 then 1 else 0 }).2.2.2.1
      2 (by decide) (by decide) (by decide)
    exact ⟨h.1, h.2⟩
  · have h := (is_reproducible_retry_policy tEx "/build/out/crash-1" "/build/out"
      w0).2.2.2.2 (by intro i _; rfl)
    exact ⟨h.1, h.2⟩

/-! Lemmas about the crash-marker scan. -/

/-- C1: the classifier realizes the verdict truth table over
(candidate-reproducible, baseline-reproducible, project-present): a crash
not reproducible against the candidate build is NotReproducible (false);
a reproducible crash with no project set is a NewRegression (true); with a
project set and an acquired baseline, a crash not reproducible against the
baseline is a NewRegression (true) and one reproducible in both builds is a
PreExistingBug (false). -/
theorem is_crash_a_failure_truth_table (t : FuzzTarget) (test_case : String)
    (w : World) :
    ((is_reproducible t test_case (dirname t.target_path) w).1 = false →
      (is_crash_a_failure t test_case w).1 = false) ∧
    ((is_reproducible t test_case (dirname t.target_path) w).1 = true →
      strOptTruthy t.project_name = false →
      (is_crash_a_failure t test_case w).1 = true) ∧
    (∀ bd w2,
      (is_reproducible t test_case (dirname t.target_path) w).1 = true →
      strOptTruthy t.project_name = true →
      download_oss_fuzz_build t
          (is_reproducible t test_case (dirname t.target_path) w).2 =
        (some bd, w2) →
      ((is_reproducible t test_case bd w2).1 = false →
        (is_crash_a_failure t test_case w).1 = true) ∧
      ((is_reproducible t test_case bd w2).1 = true →
        (is_crash_a_failure t test_case w).1 = false)) := by
  refine ⟨?_, ?_, ?_⟩
  · intro h1
    unfold is_crash_a_failure
    by_cases hp : strOptTruthy t.project_name = false
    · simp [hp, h1]
    · simp [hp, h1]
  · intro h1 hp
    unfold is_crash_a_failure
    simp [hp, h1]
  · intro bd w2 h1 hp hdl
    unfold is_crash_a_failure
    simp only [hp, h1, hdl]
    refine ⟨fun h2 => ?_, fun h2 => ?_⟩ <;> simp [h1, h2]

/-- Concrete instance of the truth table: a crash that reproduces against
the candidate build (first sandbox attempt crashes) but not against the
cached baseline build is classified as a failure (NewRegression). -/
theorem is_crash_a_failure_truth_table_witness :
    strOptTruthy tEx.project_name = true ∧
    (is_crash_a_failure tEx "/build/out/crash-1"
      { w0 with
          fs := ["/build/out", "/build/out/oss_fuzz_latest/example/do_stuff_fuzzer"],
          execCode := fun n => if n = 0 then 1 else 0 }).1 = true := by
  refine ⟨by decide, ?_⟩
  exact ((is_crash_a_failure_truth_table tEx "/build/out/crash-1"
      { w0 with
          fs := ["/build/out", "/build/out/oss_fuzz_latest/example/do_stuff_fuzzer"],
          execCode := fun n => if n = 0 then 1 else 0 }).2.2
    "/build/out/oss_fuzz_latest/example"
    (is_reproducible tEx "/build/out/crash-1" (dirname tEx.target_path)
      { w0 with
          fs := ["/build/out", "/build/out/oss_fuzz_latest/example/do_stuff_fuzzer"],
          execCode := fun n => if n = 0 then 1 else 0 }).2
    (by decide) (by decide) rfl).1 (by decide)

/-! Frame lemmas: which parts of the world each operation leaves alone. -/

theorem reproLoop_frame (cmd : List String) (n : Nat) (w : World) :
    (reproLoop cmd n w).2.reproCalls = w.reproCalls ∧
    (reproLoop cmd n w).2.reproDirs = w.reproDirs := by
  induction n generalizing w with
  | zero => exact ⟨rfl, rfl⟩
  | succ n ih =>
    simp only [reproLoop, execute]
    split
    · exact ⟨rfl, rfl⟩
    · exact ih _

/-- Each call of the Reproducibility Verifier records exactly one pass,
against the given build directory. -/
theorem is_reproducible_trace (t : FuzzTarget) (test_case dir : String)
    (w : World) :
    (is_reproducible t test_case dir w).2.reproCalls = w.reproCalls + 1 ∧
    (is_reproducible t test_case dir w).2.reproDirs = w.reproDirs ++ [dir] := by
  unfold is_reproducible
  exact ⟨(reproLoop_frame _ _ _).1, (reproLoop_frame _ _ _).2⟩

theorem get_lastest_frame (t : FuzzTarget) (w : World) :
    (get_lastest_build_version t w).2.reproCalls = w.reproCalls ∧
    (get_lastest_build_version t w).2.reproDirs = w.reproDirs := by
  unfold get_lastest_build_version
  dsimp only
  split
  · exact ⟨rfl, rfl⟩
  · split <;> exact ⟨rfl, rfl⟩

/-- Baseline acquisition never runs the Reproducibility Verifier. -/
theorem download_frame (t : FuzzTarget) (w : World) :
    (download_oss_fuzz_build t w).2.reproCalls = w.reproCalls ∧
    (download_oss_fuzz_build t w).2.reproDirs = w.reproDirs := by
  unfold download_oss_fuzz_build
  dsimp only
  split
  · exact ⟨rfl, rfl⟩
  split
  · exact ⟨rfl, rfl⟩
  split
  · exact ⟨rfl, rfl⟩
  split
  · exact ⟨(get_lastest_frame t _).1, (get_lastest_frame t _).2⟩
  split
  · exact ⟨(get_lastest_frame t _).1, (get_lastest_frame t _).2⟩
  · exact ⟨(get_lastest_frame t _).1, (get_lastest_frame t _).2⟩

/-! Behaviour of the classifier when baseline acquisition fails. -/

/-- A world where the target always crashes but every remote store
operation fails. -/
def wNF : World := { w0 with fs := ["/build/out"], execCode := fun _ => 1 }

/-- C2 counterexample: for a crash reproducible against the candidate build
of a project whose baseline acquisition fails (the store returns nothing),
the classifier returns `false` — exactly the value it returns in a
NotReproducible scenario — so there is no failure signal distinct from a
verdict. -/
theorem acquisition_failure_counterexample :
    (is_crash_a_failure tEx "/build/out/crash-a" wNF).1 = false ∧
    (is_crash_a_failure tEx "/build/out/crash-a"
      { wNF with execCode := fun _ => 0 }).1 = false := by
  constructor
  · decide
  · decide

/-- C2 amended: when the crash is reproducible against the candidate build,
a project is set, and baseline acquisition returns no build, the classifier
returns `false` — the same value as the NotReproducible and PreExistingBug
verdicts; no distinct "unable to classify" signal exists. -/
theorem acquisition_failure_returns_false (t : FuzzTarget)
    (test_case : String) (w : World)
    (hp : strOptTruthy t.project_name = true)
    (h1 : (is_reproducible t test_case (dirname t.target_path) w).1 = true)
    (hdl : (download_oss_fuzz_build t
      (is_reproducible t test_case (dirname t.target_path) w).2).1 = none) :
    (is_crash_a_failure t test_case w).1 = false := by
  unfold is_crash_a_failure
  simp only [hp, h1, hdl]
  simp

/-- Concrete instance of the amended C2 statement. -/
theorem acquisition_failure_returns_false_witness :
    strOptTruthy tEx.project_name = true ∧
    (is_crash_a_failure tEx "/build/out/crash-d" wNF).1 = false :=
  ⟨by decide,
    acquisition_failure_returns_false tEx "/build/out/crash-d" wNF
      (by decide) (by decide) (by decide)⟩

/-- A second always-crashing target and store-less world, for the
baseline-not-found scenario. -/
def t7 : FuzzTarget :=
  { target_path := "/work/out/proj_fuzzer", duration := 5,
    out_dir := "/work/out", project_name := some "proj" }

/-- A world for `t7` whose output directory exists, whose sandbox always
crashes and whose store always fails. -/
def w7 : World := { w0 with fs := ["/work/out"], execCode := fun _ => 1 }

/-- C7 counterexample: with the baseline reported not found, the verdict is
`false` (the crash is not surfaced), not the NewRegression verdict `true`
that the claim states. -/
theorem store_not_found_counterexample :
    (is_crash_a_failure t7 "/work/out/crash-b" w7).1 = false := by
  decide

/-- C7 amended: when the crash is reproducible against the candidate build,
a project is set, and the Artifact Store reports the baseline as not found,
the classifier returns `false` (not NewRegression) and performs no second
reproduction pass: the Reproducibility Verifier runs exactly once, against
the directory containing the candidate binary only. -/
theorem store_not_found_single_pass (t : FuzzTarget) (test_case : String)
    (w : World)
    (hp : strOptTruthy t.project_name = true)
    (h1 : (is_reproducible t test_case (dirname t.target_path) w).1 = true)
    (hdl : (download_oss_fuzz_build t
      (is_reproducible t test_case (dirname t.target_path) w).2).1 = none) :
    (is_crash_a_failure t test_case w).1 = false ∧
    (is_crash_a_failure t test_case w).2.reproCalls = w.reproCalls + 1 ∧
    (is_crash_a_failure t test_case w).2.reproDirs =
      w.reproDirs ++ [dirname t.target_path] := by
  unfold is_crash_a_failure
  simp only [hp, h1, hdl]
  refine ⟨by simp, ?_, ?_⟩
  · simp only [Bool.true_eq_false, if_false]
    rw [(download_frame t _).1]
    exact (is_reproducible_trace t test_case (dirname t.target_path) w).1
  · simp only [Bool.true_eq_false, if_false]
    rw [(download_frame t _).2]
    exact (is_reproducible_trace t test_case (dirname t.target_path) w).2

/-- Concrete instance of the amended C7 statement. -/
theorem store_not_found_single_pass_witness :
    (is_crash_a_failure t7 "/work/out/crash-c" w7).1 = false ∧
    (is_crash_a_failure t7 "/work/out/crash-c" w7).2.reproCalls =
      w7.reproCalls + 1 ∧
    (is_crash_a_failure t7 "/work/out/crash-c" w7).2.reproDirs =
      w7.reproDirs ++ [dirname t7.target_path] :=
  store_not_found_single_pass t7 "/work/out/crash-c" w7
    (by decide) (by decide) (by decide)

/-! Baseline acquisition: cache behaviour and on-disk effects. -/

theorem pathExists_eq_mem (w : World) (p : String) :
    pathExists w p = true ↔ p ∈ w.fs := by
  simp [pathExists, List.contains]

theorem string_toList_append (a b : String) :
    (a ++ b).toList = a.toList ++ b.toList := rfl

/-- A populated cache entry is returned immediately, with the world — in
particular every network counter — unchanged. -/
theorem download_cache_hit (t : FuzzTarget) (w : World)
    (hout : pathExists w t.out_dir = true)
    (hproj : strOptTruthy t.project_name = true)
    (hhit : pathExists w
      (osPathJoin (osPathJoin (osPathJoin t.out_dir "oss_fuzz_latest")
        (strOptVal t.project_name)) (target_name t)) = true) :
    download_oss_fuzz_build t w =
      (some (osPathJoin (osPathJoin t.out_dir "oss_fuzz_latest")
        (strOptVal t.project_name)), w) := by
  unfold download_oss_fuzz_build
  simp [hout, hproj, hhit]

/-- The complete effect of a successful cold acquisition: the cache
directory is created, one version fetch and one archive download happen,
the archive lands at the current-directory-relative `BUILD_STORE_NAME`, and
the archive members are extracted under the cache directory. -/
theorem download_success_eq (t : FuzzTarget) (w : World) (v : String)
    (members : List String)
    (hout : pathExists w t.out_dir = true)
    (hproj : strOptTruthy t.project_name = true)
    (hmiss : pathExists w
      (osPathJoin (osPathJoin (osPathJoin t.out_dir "oss_fuzz_latest")
        (strOptVal t.project_name)) (target_name t)) = false)
    (hfetch : w.store.fetch (url_join3 GCS_BASE_URL (strOptVal t.project_name)
      (strOptVal t.project_name ++ "-address-latest.version")) = some v)
    (hv : v ≠ "")
    (hretr : w.store.retrieve
      (url_join3 GCS_BASE_URL (strOptVal t.project_name) v) = some members) :
    download_oss_fuzz_build t w =
      (some (osPathJoin (osPathJoin t.out_dir "oss_fuzz_latest")
        (strOptVal t.project_name)),
       { w with
          fs := members.map (fun m =>
                  osPathJoin (osPathJoin (osPathJoin t.out_dir "oss_fuzz_latest")
                    (strOptVal t.project_name)) m) ++
                BUILD_STORE_NAME ::
                osPathJoin (osPathJoin t.out_dir "oss_fuzz_latest")
                  (strOptVal t.project_name) :: w.fs,
          fetchCount := w.fetchCount + 1,
          downloadCount := w.downloadCount + 1 }) := by
  have hvt : strOptTruthy (some v) = true := by simp [strOptTruthy, hv]
  unfold download_oss_fuzz_build get_lastest_build_version
  simp [hout, hproj, hmiss, hfetch, hretr, hvt,
    show strOptVal (some v) = v from rfl]

/-- C5: baseline acquisition is idempotent within one output directory.
A populated cache entry is returned immediately with no network access;
starting from a cache miss, a successful acquisition downloads once, and a
second acquisition for the same target returns the same path as a cache
hit with the world unchanged — two calls perform exactly one download. -/
theorem download_oss_fuzz_build_idempotent (t : FuzzTarget) (w : World)
    (v : String) (members : List String)
    (hout : pathExists w t.out_dir = true)
    (hproj : strOptTruthy t.project_name = true)
    (hmiss : pathExists w
      (osPathJoin (osPathJoin (osPathJoin t.out_dir "oss_fuzz_latest")
        (strOptVal t.project_name)) (target_name t)) = false)
    (hfetch : w.store.fetch (url_join3 GCS_BASE_URL (strOptVal t.project_name)
      (strOptVal t.project_name ++ "-address-latest.version")) = some v)
    (hv : v ≠ "")
    (hretr : w.store.retrieve
      (url_join3 GCS_BASE_URL (strOptVal t.project_name) v) = some members)
    (hmem : target_name t ∈ members) :
    (download_oss_fuzz_build t w).1 =
      some (osPathJoin (osPathJoin t.out_dir "oss_fuzz_latest")
        (strOptVal t.project_name)) ∧
    (download_oss_fuzz_build t w).2.downloadCount = w.downloadCount + 1 ∧
    download_oss_fuzz_build t (download_oss_fuzz_build t w).2 =
      (some (osPathJoin (osPathJoin t.out_dir "oss_fuzz_latest")
        (strOptVal t.project_name)), (download_oss_fuzz_build t w).2) ∧
    (∀ w3, pathExists w3 t.out_dir = true →
      pathExists w3
        (osPathJoin (osPathJoin (osPathJoin t.out_dir "oss_fuzz_latest")
          (strOptVal t.project_name)) (target_name t)) = true →
      download_oss_fuzz_build t w3 =
        (some (osPathJoin (osPathJoin t.out_dir "oss_fuzz_latest")
          (strOptVal t.project_name)), w3)) := by
  have he := download_success_eq t w v members hout hproj hmiss hfetch hv hretr
  refine ⟨by rw [he], by rw [he], ?_, ?_⟩
  · rw [he]
    apply download_cache_hit t
    · rw [pathExists_eq_mem]
      have hm : t.out_dir ∈ w.fs := (pathExists_eq_mem w t.out_dir).mp hout
      simp [hm]
    · exact hproj
    · rw [pathExists_eq_mem]
      simp only [World.fs]
      refine List.mem_append.mpr (Or.inl ?_)
      exact List.mem_map_of_mem _ hmem
  · intro w3 hout3 hhit3
    exact download_cache_hit t w3 hout3 hproj hhit3

/-- Concrete instance of C5: for the `example` project, a cold call
downloads once and the immediately following call is a cache hit returning
the same path. -/
theorem download_oss_fuzz_build_idempotent_witness :
    (download_oss_fuzz_build tEx wOk).1 =
      some "/build/out/oss_fuzz_latest/example" ∧
    (download_oss_fuzz_build tEx wOk).2.downloadCount = 1 ∧
    download_oss_fuzz_build tEx (download_oss_fuzz_build tEx wOk).2 =
      (some "/build/out/oss_fuzz_latest/example",
        (download_oss_fuzz_build tEx wOk).2) := by
  have h := download_oss_fuzz_build_idempotent tEx wOk
    "example-address-202001010000.zip"
    ["do_stuff_fuzzer", "do_stuff_fuzzer_seed_corpus.zip"]
    (by decide) (by decide) (by decide) (by decide) (by decide) (by decide)
    (by decide)
  exact ⟨h.1, h.2.1, h.2.2.1⟩

/-- C10: on every cache miss that reaches a successful download, the
archive is written to the fixed current-directory-relative name
`oss_fuzz_latest.zip` (not under the output directory, which is an absolute
path) and is never deleted; apart from it, the call only creates the cache
directory and the extracted members under
`<out_dir>/oss_fuzz_latest/<project>`. -/
theorem download_archive_frame (t : FuzzTarget) (w : World) (v : String)
    (members : List String)
    (hout : pathExists w t.out_dir = true)
    (hproj : strOptTruthy t.project_name = true)
    (hmiss : pathExists w
      (osPathJoin (osPathJoin (osPathJoin t.out_dir "oss_fuzz_latest")
        (strOptVal t.project_name)) (target_name t)) = false)
    (hfetch : w.store.fetch (url_join3 GCS_BASE_URL (strOptVal t.project_name)
      (strOptVal t.project_name ++ "-address-latest.version")) = some v)
    (hv : v ≠ "")
    (hretr : w.store.retrieve
      (url_join3 GCS_BASE_URL (strOptVal t.project_name) v) = some members) :
    (download_oss_fuzz_build t w).2.fs =
      members.map (fun m =>
        osPathJoin (osPathJoin (osPathJoin t.out_dir "oss_fuzz_latest")
          (strOptVal t.project_name)) m) ++
      BUILD_STORE_NAME ::
      osPathJoin (osPathJoin t.out_dir "oss_fuzz_latest")
        (strOptVal t.project_name) :: w.fs ∧
    BUILD_STORE_NAME ∈ (download_oss_fuzz_build t w).2.fs ∧
    BUILD_STORE_NAME = "oss_fuzz_latest.zip" ∧
    BUILD_STORE_NAME.toList.head? ≠ some '/' ∧
    (∀ rest : String, t.out_dir.toList.head? = some '/' →
      BUILD_STORE_NAME ≠ t.out_dir ++ rest) ∧
    (∀ p, p ∈ (download_oss_fuzz_build t w).2.fs → p ∉ w.fs →
      p = BUILD_STORE_NAME ∨
      p = osPathJoin (osPathJoin t.out_dir "oss_fuzz_latest")
            (strOptVal t.project_name) ∨
      ∃ m ∈ members,
        p = osPathJoin (osPathJoin (osPathJoin t.out_dir "oss_fuzz_latest")
              (strOptVal t.project_name)) m) := by
  have he := download_success_eq t w v members hout hproj hmiss hfetch hv hretr
  refine ⟨by rw [he], by rw [he]; simp, rfl, by decide, ?_, ?_⟩
  · intro rest hh heq
    have h1 : BUILD_STORE_NAME.toList.head? = (t.out_dir ++ rest).toList.head? := by
      rw [heq]
    rw [string_toList_append] at h1
    cases hc : t.out_dir.toList with
    | nil => rw [hc] at hh; cases hh
    | cons c tl =>
      rw [hc] at hh h1
      simp only [List.head?_cons, Option.some.injEq] at hh
      simp only [List.cons_append, List.head?_cons] at h1
      rw [hh] at h1
      exact absurd h1 (by decide)
  · intro p hp hnew
    rw [he] at hp
    simp only [World.fs] at hp
    rcases List.mem_append.mp hp with hmap | hrest
    · obtain ⟨m, hm, hpm⟩ := List.mem_map.mp hmap
      exact Or.inr (Or.inr ⟨m, hm, hpm.symm⟩)
    · rcases hrest with _ | ⟨_, hrest⟩
      · exact Or.inl rfl
      · rcases hrest with _ | ⟨_, hrest⟩
        · exact Or.inr (Or.inl rfl)
        · exact absurd hrest hnew

/-- Concrete instance of C10 for the `example` project. -/
theorem download_archive_frame_witness :
    (download_oss_fuzz_build tEx wOk).2.fs =
      ["/build/out/oss_fuzz_latest/example/do_stuff_fuzzer",
       "/build/out/oss_fuzz_latest/example/do_stuff_fuzzer_seed_corpus.zip",
       "oss_fuzz_latest.zip", "/build/out/oss_fuzz_latest/example",
       "/build/out"] ∧
    BUILD_STORE_NAME ∈ (download_oss_fuzz_build tEx wOk).2.fs := by
  have h := download_archive_frame tEx wOk "example-address-202001010000.zip"
    ["do_stuff_fuzzer", "do_stuff_fuzzer_seed_corpus.zip"]
    (by decide) (by decide) (by decide) (by decide) (by decide) (by decide)
  exact ⟨by rw [h.1]; decide, h.2.1⟩

/-! The Fuzz Session. -/

/-- The byte string of an ASCII text. -/
def asciiBytes (s : String) : List Nat := s.toList.map Char.toNat

/-- C6 (exhibiting the code bug): a run that ends before its deadline whose
captured output contains no reproducer marker does not log-and-return
`(None, None)`: line 111 passes the print-style keyword `file=sys.stderr`
to `logging.error`, which accepts no such keyword, so the call raises
`TypeError` and `fuzz` propagates it instead of returning the empty
result. -/
theorem fuzz_no_marker_raises_type_error :
    fuzz tEx none
      (.completed (asciiBytes "==1==ERROR: AddressSanitizer: SEGV on unknown address"))
      w0 =
    .error (.typeError "unexpected keyword argument passed to Logger log call") := rfl

/-- C9: the session decodes the captured error stream strictly as ASCII —
any non-ASCII byte makes the completed run raise a decoding error rather
than return a result — so the no-crash `(None, None)` outcome is only
reachable for ASCII-decodable captures or a timeout. -/
theorem fuzz_ascii_strict (t : FuzzTarget) (container : Option String)
    (err : List Nat) (w : World) :
    (err.all (fun b => b < 128) = false →
      fuzz t container (.completed err) w = .error .unicodeDecodeError) ∧
    (∀ w2, fuzz t container (.completed err) w = .ok ((none, none), w2) →
      err.all (fun b => b < 128) = true) ∧
    (∃ w2, fuzz t container .timeout w = .ok ((none, none), w2)) := by
  refine ⟨?_, ?_, ⟨_, rfl⟩⟩
  · intro h
    unfold fuzz decode_ascii
    simp [h]
  · intro w2 hok
    by_cases h : err.all (fun b => b < 128)
    · exact h
    · exfalso
      rw [Bool.not_eq_true] at h
      unfold fuzz decode_ascii at hok
      simp [h] at hok

/-- Concrete instance of C9: a single byte 255 in the capture raises the
decoding error. -/
theorem fuzz_ascii_strict_witness :
    ([255].all (fun b => b < 128) = false) ∧
    fuzz tEx none (.completed [255]) w0 = .error .unicodeDecodeError :=
  ⟨by decide, (fuzz_ascii_strict tEx none [255] w0).1 (by decide)⟩

/-- C8: with a missing output directory the Fuzz Session returns the empty
result without invoking the Sandbox Runner and baseline acquisition returns
the empty result without touching the network (the world, counters
included, is returned unchanged); likewise acquisition with no project
identifier set returns the empty result. -/
theorem env_missing_out_dir_fail_fast (t : FuzzTarget)
    (container : Option String) (outcome : ProcOutcome) (w : World)
    (h : pathExists w t.out_dir = false) :
    run_fuzzers_session t container outcome w = .ok ((none, none), w) ∧
    download_oss_fuzz_build t w = (none, w) ∧
    (∀ w2, strOptTruthy t.project_name = false →
      download_oss_fuzz_build t w2 = (none, w2)) := by
  refine ⟨?_, ?_, ?_⟩
  · unfold run_fuzzers_session
    simp [h]
  · unfold download_oss_fuzz_build
    simp [h]
  · intro w2 hp
    unfold download_oss_fuzz_build
    split
    · rfl
    · simp [hp]

/-- A target whose output directory does not exist in `w0`. -/
def tNoDir : FuzzTarget :=
  { target_path := "/gone/out/some_fuzzer", duration := 5,
    out_dir := "/gone/out", project_name := some "p" }

/-- Concrete instance of C8. -/
theorem env_missing_out_dir_fail_fast_witness :
    pathExists w0 tNoDir.out_dir = false ∧
    run_fuzzers_session tNoDir none .timeout w0 = .ok ((none, none), w0) ∧
    download_oss_fuzz_build tNoDir w0 = (none, w0) :=
  ⟨by decide,
    (env_missing_out_dir_fail_fast tNoDir none .timeout w0 (by decide)).1,
    (env_missing_out_dir_fail_fast tNoDir none .timeout w0 (by decide)).2.1⟩

end CIFuzz
